import Mathlib

set_option autoImplicit false

namespace GameChat

/-!
Shallow embedding of the backend modules document_processing.py, llm_chain.py
and main.py of the conversational-AI repository. Python strings are modelled
as Lean strings, raw file bytes as lists of byte values, the filesystem as a
map from path strings to a directory state, and the external collaborators
(the Chroma store, the embedding and completion model services, shutil
deletion) as explicit oracle parameters describing their possible outcomes.
Python functions that can raise are modelled with Except or with an explicit
Except component next to the state they mutated before raising; a caught
exception corresponds to discarding that component.
-/

/-- State of one directory path on disk. -/
inductive DirState where
  | absent
  | emptyDir
  | nonEmpty
  deriving DecidableEq, Repr

/-- The filesystem, as a map from path strings to directory states. -/
def Disk : Type := String → DirState

/-- Set the state of one path. -/
def Disk.set (d : Disk) (p : String) (s : DirState) : Disk :=
  fun q => if q = p then s else d q

/-- Model of os.makedirs(p, exist_ok=True): an absent directory becomes an
empty one, any existing directory is left as it is. -/
def Disk.mkdirs (d : Disk) (p : String) : Disk :=
  fun q =>
    if q = p then
      match d p with
      | DirState.absent => DirState.emptyDir
      | s => s
    else d q

/-- Model of os.path.join for the relative literal components the backend
joins (neither argument is absolute or empty there). -/
def osPathJoin (a b : String) : String := a ++ "/" ++ b

/-- document_processing.CHROMA_BASE_PATH. -/
def CHROMA_BASE_PATH : String := "chroma_db"

/-- The path value returned by document_processing.get_user_chroma_path:
os.path.join(CHROMA_BASE_PATH, f"user_...") for the given user id. -/
def get_user_chroma_path (user_id : String) : String :=
  osPathJoin CHROMA_BASE_PATH ("user_" ++ user_id)

/-- get_user_chroma_path also runs os.makedirs(user_path, exist_ok=True);
this is the same call together with its filesystem effect. -/
def get_user_chroma_path_mk (user_id : String) (d : Disk) : String × Disk :=
  (get_user_chroma_path user_id, d.mkdirs (get_user_chroma_path user_id))

/-- config.UPLOAD_DIR, namely os.path.join(BASE_DIR, "uploads") for the
environment-dependent BASE_DIR. -/
def UPLOAD_DIR (base_dir : String) : String := osPathJoin base_dir "uploads"

/-- The per-user upload directory built by main.upload_document and
document_processing.clear_user_uploaded_files:
os.path.join(UPLOAD_DIR, f"user_...") for the given user id. -/
def user_upload_dir (upload_dir user_id : String) : String :=
  osPathJoin upload_dir ("user_" ++ user_id)

/-- One conversational turn: a role string and a content string. Used both
for entries of the caller-supplied chat_history list and for messages held by
a ConversationBufferMemory. -/
structure Turn where
  role : String
  content : String
  deriving DecidableEq, Repr

/-- llm_chain.memory_by_user_and_function: user id and function type index a
lazily created memory. none models an absent dictionary entry, some h a
memory whose message list is h. -/
def Registry : Type := String → String → Option (List Turn)

/-- Outcome of the external shutil.rmtree call on a user chroma directory:
it succeeds, it keeps failing with PermissionError through all three retries,
or it fails with an exception of another class. -/
inductive DelOutcome where
  | success
  | permBusy
  | otherError
  deriving DecidableEq, Repr

/-- document_processing.clear_user_vector_store. After the in-memory handle
cleanup it recomputes the user path (which recreates the directory when it is
absent), then deletes the directory with up to three rmtree attempts. A
persistent PermissionError falls back to best-effort file-by-file removal
that swallows per-file errors and leaves the (now emptied) directory behind;
any other rmtree exception reaches the outer handler, which logs and
re-raises. The returned pair carries the disk as mutated so far together
with Except.error when the function raises. -/
def clear_user_vector_store (user_id : String) (del : DelOutcome) (d : Disk) :
    Disk × Except Unit Unit :=
  let pd := get_user_chroma_path_mk user_id d
  let p := pd.1
  let d1 := pd.2
  match d1 p with
  | DirState.absent => (d1, Except.ok ())
  | _ =>
    match del with
    | DelOutcome.success => (d1.set p DirState.absent, Except.ok ())
    | DelOutcome.permBusy => (d1.set p DirState.emptyDir, Except.ok ())
    | DelOutcome.otherError => (d1, Except.error ())

/-- document_processing.clear_user_uploaded_files: removes the per-user
upload directory via shutil.rmtree; any exception is logged and re-raised.
The Bool oracle is the rmtree outcome. -/
def clear_user_uploaded_files (upload_dir user_id : String) (ok : Bool)
    (d : Disk) : Disk × Except Unit Unit :=
  let p := user_upload_dir upload_dir user_id
  match d p with
  | DirState.absent => (d, Except.ok ())
  | _ =>
    if ok then (d.set p DirState.absent, Except.ok ())
    else (d, Except.error ())

/-- document_processing.clear_user_document_data: runs the vector-store clear
and the uploaded-files clear, each inside its own try/except; failures are
collected into a log warning and never re-raised, so the function is total. -/
def clear_user_document_data (upload_dir user_id : String)
    (del : DelOutcome) (ok : Bool) (d : Disk) : Disk :=
  let r1 := clear_user_vector_store user_id del d
  let d1 := r1.1
  let r2 := clear_user_uploaded_files upload_dir user_id ok d1
  r2.1

/-- llm_chain.clear_memory_for_function. The memory entry for
(user_id, function_type) is emptied when present (entries stay in the
registry, their message list becomes empty); when the function type is
doc_qa the document data of the user is additionally cleared, inside a
try/except that logs and swallows any failure. -/
def clear_memory_for_function (upload_dir function_type user_id : String)
    (del : DelOutcome) (ok : Bool) (reg : Registry) (d : Disk) :
    Except Unit (Registry × Disk) :=
  let reg2 : Registry := fun u f =>
    if u = user_id ∧ f = function_type ∧ (reg user_id function_type).isSome
    then some [] else reg u f
  let d2 :=
    if function_type = "doc_qa"
    then clear_user_document_data upload_dir user_id del ok d
    else d
  Except.ok (reg2, d2)

/-- Python str.strip over the code-point list: leading and trailing
whitespace removed. -/
def pyStrip (s : String) : String :=
  String.mk (((s.data.dropWhile Char.isWhitespace).reverse.dropWhile
    Char.isWhitespace).reverse)

/-- Outcome of the single embed_query test call against the external Ollama
embedding service: a vector, or an exception (which also covers a failing
OllamaEmbeddings constructor). -/
inductive EmbedProbe where
  | ok (v : List Int)
  | exn
  deriving DecidableEq, Repr

/-- A handle to the embedding provider. -/
structure Embeddings where
  model : String
  deriving DecidableEq, Repr

/-- document_processing.init_embeddings. The Ollama provider is constructed
and probed with one embed_query call inside an inner try whose except clause
only logs a warning; when the probe yields a non-empty vector the provider
is returned. On an empty vector, and likewise on a probe exception, control
falls out of the inner try and then off the end of the function body, so
Python returns None; the outer except-and-reraise clause is unreachable.
Except.ok none is that implicit None return. -/
def init_embeddings (probe : EmbedProbe) : Except Unit (Option Embeddings) :=
  match probe with
  | EmbedProbe.ok v =>
    if v ≠ [] ∧ 0 < v.length then Except.ok (some { model := "nomic-embed-text" })
    else Except.ok none
  | EmbedProbe.exn => Except.ok none

/-- The handle returned by vector_store.as_retriever. -/
structure Retriever where
  search_type : String
  k : Nat
  deriving DecidableEq, Repr

/-- Outcome of the external Chroma.from_documents call. -/
inductive CreateOutcome where
  | ok
  | exn
  deriving DecidableEq, Repr

/-- Outcome of the external collection.count() verification call. -/
inductive CountOutcome where
  | value (n : Nat)
  | exn
  deriving DecidableEq, Repr

/-- document_processing.init_vector_store. Filters whitespace-only chunks
(raising when none remain), recomputes the user chroma path (creating the
directory when absent), initializes embeddings, builds the persistent
collection via Chroma.from_documents, then verifies the record count inside
a try block: a count of zero raises a ValueError inside that same try, and
the except Exception clause of the try catches it together with any count()
failure, logs a warning and continues. Finally the similarity retriever
with k equal to 4 is returned. The disk is returned next to the result so
that mutations survive a raise. -/
def init_vector_store (documents : List String) (user_id : String)
    (probe : EmbedProbe) (create : CreateOutcome) (count : CountOutcome)
    (d : Disk) : Except Unit Retriever × Disk :=
  let valid_docs := documents.filter (fun s => pyStrip s ≠ "")
  if valid_docs.isEmpty then (Except.error (), d)
  else
    let pd := get_user_chroma_path_mk user_id d
    let p := pd.1
    let d1 := pd.2
    match init_embeddings probe with
    | Except.error _ => (Except.error (), d1)
    | Except.ok _ =>
      match create with
      | CreateOutcome.exn => (Except.error (), d1)
      | CreateOutcome.ok =>
        let d2 := d1.set p DirState.nonEmpty
        let _verification_warned :=
          match count with
          | CountOutcome.value 0 => true
          | CountOutcome.exn => true
          | CountOutcome.value _ => false
        (Except.ok { search_type := "similarity", k := 4 }, d2)

/-- The two kinds of value llm_chain.get_response can hand back from the
doc_qa branch: the str a real LCEL chain produces, or the dict that
EmptyDocQAChain.invoke returns under the key answer. -/
inductive PyValue where
  | str (s : String)
  | dict (answer : String)
  deriving DecidableEq, Repr

/-- The fixed message of EmptyDocQAChain. -/
def fallback_message : String := "不清楚文档内容，请上传文档内容后重试。"

/-- Which chain init_doc_qa_system produced. -/
inductive DocChain where
  | emptyChain
  | lcel
  deriving DecidableEq, Repr

/-- llm_chain.init_doc_qa_system: recomputes the user chroma path (creating
the directory when absent), returns the EmptyDocQAChain placeholder when
that directory does not exist or has no entries, and otherwise builds the
LCEL retrieval chain. init_embeddings is called on that second path but
never raises; any exception while building the Chroma handle or the chain is
caught and also yields the placeholder, which the buildOk oracle covers. -/
def init_doc_qa_system (user_id : String) (buildOk : Bool) (d : Disk) :
    DocChain × Disk :=
  let pd := get_user_chroma_path_mk user_id d
  let p := pd.1
  let d1 := pd.2
  match d1 p with
  | DirState.absent => (DocChain.emptyChain, d1)
  | DirState.emptyDir => (DocChain.emptyChain, d1)
  | DirState.nonEmpty =>
    (if buildOk then DocChain.lcel else DocChain.emptyChain, d1)

/-- The default role string passed to dict.get in get_response and
get_response_stream. -/
def general_role : String :=
  "你是睿玩智库的通用助手形态，帮助用户解决问题，如果不清楚，请说不知道。"

/-- The role_descriptions dictionary literal of llm_chain.get_response. -/
def role_descriptions : List (String × String) :=
  [("play", "你是睿玩智库的游戏推荐助手形态，根据用户的喜好推荐游戏，如果不清楚，请说不知道。"),
   ("game_guide", "你是专业的游戏攻略助手，提供清晰、结构化的攻略步骤。\n" ++
     "回答格式要求：\n" ++
     "1. 问题分析：简要分析用户的问题\n" ++
     "2. 所需条件：列出解决问题需要的物品、等级等条件\n" ++
     "3. 步骤详解：分步骤说明解决方法，每步包含具体操作\n" ++
     "4. 注意事项：提醒用户需要注意的地方\n" ++
     "5. 替代方案：如果有其他解决方法，简要说明\n" ++
     "请确保回答具体、可操作，避免模糊描述。如果不清楚，请说不知道。"),
   ("doc_qa", "你是睿玩智库的文档检索助手形态，根据文档内容回答问题，注意：如果没有传入文档内容，必须回答：不清楚文档内容，不要编造内容。"),
   ("game_wiki", "你是睿玩智库的游戏百科助手形态，提供游戏的详细信息和背景知识。\n" ++
     "回答格式要求：\n" ++
     "1. 基本信息：游戏名称、类型、平台、开发商、发行商、发布日期\n" ++
     "2. 游戏简介：简要介绍游戏的核心玩法和特色\n" ++
     "3. 剧情概要：如果有主要剧情线，简要描述\n" ++
     "4. 主要角色：列出主要角色及其简介\n" ++
     "5. 游戏特色：列举游戏的核心特色\n" ++
     "6. 相关推荐：推荐2-3款类似游戏\n" ++
     "请确保信息准确，结构清晰。如果不清楚，请说不知道。")]

/-- The history-rendering loop shared verbatim by get_response and
get_response_stream: only the last ten entries of chat_history are walked,
a role equal to user renders as 人类 and every other role as AI助手, and the
lines are accumulated into one string. -/
def history_text (chat_history : List Turn) : String :=
  String.join ((chat_history.drop (chat_history.length - 10)).map
    (fun m => (if m.role = "user" then "人类" else "AI助手") ++ ": " ++ m.content ++ "\n"))

/-- llm_chain.format_docs: retrieved chunk texts joined by a blank line. -/
def format_docs (docs : List String) : String := String.intercalate "\n\n" docs

/-- The non-doc-qa prompt template of get_response with role description,
history text and user message substituted. -/
def render_general_prompt (role_description chat_history input : String) : String :=
  "你的名字叫做睿玩智库。你有多种形态，请用中文回答用户的问题。下面是你的形态描述：\n        " ++
  role_description ++ "\n        \n        当前对话历史：\n        " ++
  chat_history ++ "\n        \n        人类: " ++ input ++ "\n        AI助手:"

/-- The doc-qa prompt template of init_doc_qa_system with retrieved context,
history text and question substituted. -/
def render_qa_prompt (context chat_history question : String) : String :=
  "你是睿玩智库的文档检索助手形态，请根据提供的文档内容回答问题。如果文档内容不包含答案，请回答\"根据文档内容，我无法回答这个问题\"。\n    \n    文档内容：\n    " ++
  context ++ "\n    \n    当前对话历史：\n    " ++
  chat_history ++ "\n\n    人类: " ++ question ++ "\n    AI助手:"

/-- Outcome of one completion-model invocation as a function of the rendered
prompt: the generated text, or none when the external call raises. -/
def LlmOracle : Type := String → Option String

/-- The fixed user-facing message of the doc_qa error handler. -/
def error_doc_message : String := "处理文档时发生错误，请稍后再试"

/-- The fixed user-facing message of the outer error handler. -/
def error_general_message : String := "系统处理请求时出错，请稍后再试"

/-- llm_chain.get_response, with the number of completion-model invocations
tracked in the second component. The doc_qa branch invokes whichever chain
init_doc_qa_system produced: the EmptyDocQAChain returns its dict without
touching the model, while the LCEL chain retrieves context (the retrieved
oracle), renders the prompt and invokes the model, converting an exception
into the fixed document error string. Every other function type renders the
general template with the role looked up by dict.get under the general
default and strips the model output; the outer handler converts any raise
into the fixed general error string. In all cases the function returns
normally, so its type is total. -/
def get_response (message : String) (function : String) (user_id : String)
    (chat_history : Option (List Turn)) (buildOk : Bool)
    (retrieved : List String) (llm : LlmOracle) (d : Disk) :
    (PyValue × Nat) × Disk :=
  let ch := chat_history.getD []
  let h := history_text ch
  if function = "doc_qa" then
    match init_doc_qa_system user_id buildOk d with
    | (DocChain.emptyChain, d1) => ((PyValue.dict fallback_message, 0), d1)
    | (DocChain.lcel, d1) =>
      match llm (render_qa_prompt (format_docs retrieved) h message) with
      | some out => ((PyValue.str out, 1), d1)
      | none => ((PyValue.str error_doc_message, 1), d1)
  else
    let role := (List.lookup function role_descriptions).getD general_role
    match llm (render_general_prompt role h message) with
    | some out => ((PyValue.str (pyStrip out), 1), d)
    | none => ((PyValue.str error_general_message, 1), d)

/-- llm_chain.get_response_stream, modelled by the concatenation of every
yielded chunk, with the invocation count. EmptyDocQAChain.astream yields the
fallback message character by character, so the concatenation is exactly the
fallback string; the general branch yields raw model chunks without a final
strip; each error handler yields its fixed message. -/
def get_response_stream (message : String) (function : String) (user_id : String)
    (chat_history : Option (List Turn)) (buildOk : Bool)
    (retrieved : List String) (llm : LlmOracle) (d : Disk) :
    (String × Nat) × Disk :=
  let ch := chat_history.getD []
  let h := history_text ch
  if function = "doc_qa" then
    match init_doc_qa_system user_id buildOk d with
    | (DocChain.emptyChain, d1) => ((fallback_message, 0), d1)
    | (DocChain.lcel, d1) =>
      match llm (render_qa_prompt (format_docs retrieved) h message) with
      | some out => ((out, 1), d1)
      | none => ((error_doc_message, 1), d1)
  else
    let role := (List.lookup function role_descriptions).getD general_role
    match llm (render_general_prompt role h message) with
    | some out => ((out, 1), d)
    | none => ((error_general_message, 1), d)

/-- main.ApplicationState.valid_functions. -/
def valid_functions : List String :=
  ["general", "play", "game_guide", "doc_qa", "game_wiki"]

/-- What main.ApplicationState.get_system_for_function hands back. -/
inductive SysOutcome where
  | system (function_type : String)
  | raised
  deriving DecidableEq, Repr

/-- main.ApplicationState.get_system_for_function: an unknown function type
is replaced by general before the lookup; a missing instance is lazily
created (outcome createOk); when creation fails the cached general system is
the fallback, and only when that is also missing does the method re-raise.
systems lists the function types with an already-created instance. -/
def get_system_for_function (function_type : String) (systems : List String)
    (createOk : Bool) : SysOutcome :=
  let f := if function_type ∈ valid_functions then function_type else "general"
  if f ∈ systems then SysOutcome.system f
  else if createOk then SysOutcome.system f
  else if "general" ∈ systems then SysOutcome.system "general"
  else SysOutcome.raised

/-- document_processing.generate_document_summary: space-join the first
three chunk texts; when the joined text has more than max_length characters,
keep its first max_length characters and append a three-character ellipsis.
Python slicing content[:max_length] is modelled on the code-point list. -/
def generate_document_summary (documents : List String) (max_length : Nat) : String :=
  let content := String.intercalate " " (documents.take 3)
  if content.length > max_length then String.mk (content.data.take max_length) ++ "..."
  else content

/-- The response model of the upload endpoint. -/
structure UploadResponse where
  message : String
  filename : String
  summary : String
  page_count : Nat
  chunk_count : Nat
  deriving DecidableEq, Repr

/-- The UploadResponse main.upload_document builds on the success path, from
the loaded page documents and the split chunks. -/
def upload_success_response (filename : String)
    (documents split_docs : List String) : UploadResponse :=
  { message := "文件上传并处理成功"
    filename := filename
    summary := generate_document_summary split_docs 500
    page_count := documents.length
    chunk_count := split_docs.length }

/-- One strict UTF-8 decoding step, as the utf-8 codec used by TextLoader
performs it: given the lead byte and the remaining bytes, the code point and
the number of continuation bytes consumed. Overlong forms, surrogates and
code points beyond 0x10FFFF are rejected. -/
def utf8Step (b : Nat) (rest : List Nat) : Option (Nat × Nat) :=
  if b < 0x80 then some (b, 0)
  else if b < 0xC2 then none
  else if b < 0xE0 then
    match rest with
    | b1 :: _ =>
      if 0x80 ≤ b1 ∧ b1 < 0xC0 then some ((b - 0xC0) * 64 + (b1 - 0x80), 1)
      else none
    | [] => none
  else if b < 0xF0 then
    match rest with
    | b1 :: b2 :: _ =>
      if (0x80 ≤ b1 ∧ b1 < 0xC0) ∧ (0x80 ≤ b2 ∧ b2 < 0xC0) then
        let c := (b - 0xE0) * 4096 + (b1 - 0x80) * 64 + (b2 - 0x80)
        if 0x800 ≤ c ∧ (c < 0xD800 ∨ 0xE000 ≤ c) then some (c, 2) else none
      else none
    | _ => none
  else if b < 0xF5 then
    match rest with
    | b1 :: b2 :: b3 :: _ =>
      if (0x80 ≤ b1 ∧ b1 < 0xC0) ∧ (0x80 ≤ b2 ∧ b2 < 0xC0) ∧
          (0x80 ≤ b3 ∧ b3 < 0xC0) then
        let c := (b - 0xF0) * 262144 + (b1 - 0x80) * 4096 +
          (b2 - 0x80) * 64 + (b3 - 0x80)
        if 0x10000 ≤ c ∧ c < 0x110000 then some (c, 3) else none
      else none
    | _ => none
  else none

/-- Strict UTF-8 decoding by iterated utf8Step; the fuel argument, always
instantiated with the length of the byte list, only makes the recursion
structural. -/
def utf8DecodeAux : Nat → List Nat → Option (List Nat)
  | _, [] => some []
  | 0, _ :: _ => none
  | fuel + 1, b :: rest =>
    match utf8Step b rest with
    | none => none
    | some (c, k) => (utf8DecodeAux fuel (rest.drop k)).map (fun t => c :: t)

/-- Strict UTF-8 decoding of a byte list into its code points. -/
def utf8Decode (l : List Nat) : Option (List Nat) := utf8DecodeAux l.length l

/-- A code point of a Python text: below 0x110000 and not a surrogate. -/
def ValidCp (c : Nat) : Prop := c < 0x110000 ∧ (c < 0xD800 ∨ 0xE000 ≤ c)

/-- UTF-8 encoding of one valid code point. -/
def utf8EncodeChar (c : Nat) : List Nat :=
  if c < 0x80 then [c]
  else if c < 0x800 then [0xC0 + c / 64, 0x80 + c % 64]
  else if c < 0x10000 then [0xE0 + c / 4096, 0x80 + c / 64 % 64, 0x80 + c % 64]
  else [0xF0 + c / 262144, 0x80 + c / 4096 % 64, 0x80 + c / 64 % 64, 0x80 + c % 64]

/-- UTF-8 encoding of a code-point sequence. -/
def utf8Encode (t : List Nat) : List Nat := (t.map utf8EncodeChar).flatten

/-- The utf-8-sig codec: a leading byte-order mark is stripped when present,
the remainder is decoded as utf-8. -/
def utf8SigDecode (bs : List Nat) : Option (List Nat) :=
  match bs with
  | 239 :: 187 :: 191 :: rest => utf8Decode rest
  | _ => utf8Decode bs

/-- Modelled from the spec: the two CJK candidate encodings are the gbk and
gb2312 codecs of the Python standard library, external to the repository.
Only success or failure of a candidate influences the loader, so the byte
structure of the codec is modelled exactly (ASCII bytes decode to
themselves, a lead byte must be followed by a valid trail byte) while the
code point produced for a double-byte sequence is an injective placeholder
above the Unicode range, standing in for the external mapping table. -/
def gbkDecode : List Nat → Option (List Nat)
  | [] => some []
  | b :: rest =>
    if b < 0x80 then (gbkDecode rest).map (fun t => b :: t)
    else if 0x81 ≤ b ∧ b ≤ 0xFE then
      match rest with
      | [] => none
      | b1 :: rest1 =>
        if (0x40 ≤ b1 ∧ b1 ≤ 0xFE) ∧ b1 ≠ 0x7F then
          (gbkDecode rest1).map (fun t => (0x110000 + b * 256 + b1) :: t)
        else none
    else none

/-- Modelled from the spec: the gb2312 codec, like gbkDecode an external
Python codec with the narrower lead range 0xA1 to 0xF7 and trail range
0xA1 to 0xFE. -/
def gb2312Decode : List Nat → Option (List Nat)
  | [] => some []
  | b :: rest =>
    if b < 0x80 then (gb2312Decode rest).map (fun t => b :: t)
    else if 0xA1 ≤ b ∧ b ≤ 0xF7 then
      match rest with
      | [] => none
      | b1 :: rest1 =>
        if 0xA1 ≤ b1 ∧ b1 ≤ 0xFE then
          (gb2312Decode rest1).map (fun t => (0x120000 + b * 256 + b1) :: t)
        else none
    else none

/-- The latin-1 codec: every byte decodes to the code point of equal value,
so decoding never fails. -/
def latin1Decode (bs : List Nat) : Option (List Nat) := some bs

/-- The ordered candidate list of process_uploaded_file for txt files:
utf-8, gbk, gb2312, utf-8-sig, latin-1. -/
def txt_encodings : List (List Nat → Option (List Nat)) :=
  [utf8Decode, gbkDecode, gb2312Decode, utf8SigDecode, latin1Decode]

/-- The loop of the txt branch: each candidate is tried in order, a
UnicodeDecodeError moves on to the next candidate, and the first successful
decode is returned. -/
def firstSuccess (ds : List (List Nat → Option (List Nat))) (bs : List Nat) :
    Option (List Nat) :=
  match ds with
  | [] => none
  | dec :: ds2 =>
    match dec bs with
    | some t => some t
    | none => firstSuccess ds2 bs

/-- The txt branch of document_processing.process_uploaded_file over the raw
bytes of the file: the candidate encodings are tried in order and the first
successful decode is the document content; when every candidate fails a
ValueError is raised. -/
def process_uploaded_file_txt (bs : List Nat) : Except String (List Nat) :=
  match firstSuccess txt_encodings bs with
  | some t => Except.ok t
  | none => Except.error "无法使用任何编码方式加载文本文件"

/-- A vector record persisted in a collection. -/
structure VectorRecord where
  embedding : List Int
  text : String
  metadata : String

/-- The persisted vector collections, keyed by their persist directory. -/
def StoreMap : Type := String → List VectorRecord

/-- Replacing the collection persisted at one path. -/
def StoreMap.write (m : StoreMap) (p : String) (recs : List VectorRecord) :
    StoreMap :=
  fun q => if q = p then recs else m q

/-- The registry with no entry at all. -/
def emptyRegistry : Registry := fun _ _ => none

/-- The disk on which every path is absent. -/
def emptyDisk : Disk := fun _ => DirState.absent

theorem string_append_left_cancel {a b c : String} (h : a ++ b = a ++ c) :
    b = c := by
  have hd := congrArg String.data h
  rw [String.data_append, String.data_append] at hd
  have h2 := List.append_cancel_left hd
  cases b
  cases c
  exact congrArg String.mk h2

theorem get_user_chroma_path_injective {u1 u2 : String}
    (h : get_user_chroma_path u1 = get_user_chroma_path u2) : u1 = u2 := by
  unfold get_user_chroma_path osPathJoin at h
  exact string_append_left_cancel (string_append_left_cancel h)

theorem user_upload_dir_injective {base u1 u2 : String}
    (h : user_upload_dir base u1 = user_upload_dir base u2) : u1 = u2 := by
  unfold user_upload_dir osPathJoin at h
  exact string_append_left_cancel (string_append_left_cancel h)

theorem Disk.set_self (d : Disk) (p : String) (s : DirState) :
    (d.set p s) p = s := by
  simp [Disk.set]

theorem Disk.set_other (d : Disk) (p q : String) (s : DirState) (h : q ≠ p) :
    (d.set p s) q = d q := by
  simp [Disk.set, h]

theorem Disk.mkdirs_self (d : Disk) (p : String) :
    (d.mkdirs p) p = match d p with
      | DirState.absent => DirState.emptyDir
      | s => s := by
  simp [Disk.mkdirs]

theorem Disk.mkdirs_self_ne_absent (d : Disk) (p : String) :
    (d.mkdirs p) p ≠ DirState.absent := by
  rw [Disk.mkdirs_self]
  cases h : d p <;> simp

/-- Claim C6: distinct user id strings always receive distinct vector-store
directory paths and distinct upload directory paths, and a vector-store
write keyed by the first user path leaves the collection persisted under the
second user path untouched. -/
theorem user_namespaces_isolated (base u1 u2 : String) (h : u1 ≠ u2) :
    get_user_chroma_path u1 ≠ get_user_chroma_path u2 ∧
    user_upload_dir (UPLOAD_DIR base) u1 ≠ user_upload_dir (UPLOAD_DIR base) u2 ∧
    ∀ (m : StoreMap) (recs : List VectorRecord),
      (m.write (get_user_chroma_path u1) recs) (get_user_chroma_path u2) =
        m (get_user_chroma_path u2) := by
  refine ⟨fun hp => h (get_user_chroma_path_injective hp),
    fun hp => h (user_upload_dir_injective hp), ?_⟩
  intro m recs
  have hne : get_user_chroma_path u2 ≠ get_user_chroma_path u1 :=
    fun hp => h (get_user_chroma_path_injective hp).symm
  simp [StoreMap.write, hne]

/-- Claim C6 witness at the concrete users alice and bob. -/
theorem user_namespaces_isolated_witness :
    get_user_chroma_path "alice" ≠ get_user_chroma_path "bob" ∧
    user_upload_dir (UPLOAD_DIR "/app") "alice" ≠ user_upload_dir (UPLOAD_DIR "/app") "bob" ∧
    ∀ (m : StoreMap) (recs : List VectorRecord),
      (m.write (get_user_chroma_path "alice") recs) (get_user_chroma_path "bob") =
        m (get_user_chroma_path "bob") :=
  user_namespaces_isolated "/app" "alice" "bob" (by decide)

/-- Claim C7: conversation memories are independent across keys. Clearing
the key (user, f1) leaves the memory of (user, f2) unchanged whenever f2
differs from f1, and clearing (u1, f) leaves the memory of (u2, f)
unchanged whenever u2 differs from u1, whatever the cleanup oracles do. -/
theorem memory_keys_independent :
    (∀ (base : String) (reg : Registry) (d : Disk) (u f1 f2 : String)
        (del : DelOutcome) (ok : Bool),
      f1 ≠ f2 →
      ∃ st, clear_memory_for_function base f1 u del ok reg d = Except.ok st ∧
        st.1 u f2 = reg u f2) ∧
    (∀ (base : String) (reg : Registry) (d : Disk) (f u1 u2 : String)
        (del : DelOutcome) (ok : Bool),
      u1 ≠ u2 →
      ∃ st, clear_memory_for_function base f u1 del ok reg d = Except.ok st ∧
        st.1 u2 f = reg u2 f) := by
  constructor
  · intro base reg d u f1 f2 del ok hne
    refine ⟨_, rfl, ?_⟩
    show (if u = u ∧ f2 = f1 ∧ (reg u f1).isSome then some [] else reg u f2) = reg u f2
    rw [if_neg]
    rintro ⟨-, h2, -⟩
    exact hne h2.symm
  · intro base reg d f u1 u2 del ok hne
    refine ⟨_, rfl, ?_⟩
    show (if u2 = u1 ∧ f = f ∧ (reg u1 f).isSome then some [] else reg u2 f) = reg u2 f
    rw [if_neg]
    rintro ⟨h1, -, -⟩
    exact hne h1.symm

/-- Claim C7 witness at the concrete keys (alice, general), (alice,
game_guide) and (alice, general), (bob, general). -/
theorem memory_keys_independent_witness :
    (∃ st, clear_memory_for_function "/app" "general" "alice"
        DelOutcome.success true emptyRegistry emptyDisk = Except.ok st ∧
      st.1 "alice" "game_guide" = emptyRegistry "alice" "game_guide") ∧
    (∃ st, clear_memory_for_function "/app" "general" "alice"
        DelOutcome.success true emptyRegistry emptyDisk = Except.ok st ∧
      st.1 "bob" "general" = emptyRegistry "bob" "general") :=
  ⟨memory_keys_independent.1 "/app" emptyRegistry emptyDisk "alice" "general"
      "game_guide" DelOutcome.success true (by decide),
    memory_keys_independent.2 "/app" emptyRegistry emptyDisk "general" "alice"
      "bob" DelOutcome.success true (by decide)⟩

theorem clear_user_vector_store_success (u : String) (d : Disk) :
    clear_user_vector_store u DelOutcome.success d =
      ((d.mkdirs (get_user_chroma_path u)).set (get_user_chroma_path u)
        DirState.absent, Except.ok ()) := by
  unfold clear_user_vector_store get_user_chroma_path_mk
  simp only []
  cases hm : (d.mkdirs (get_user_chroma_path u)) (get_user_chroma_path u) with
  | absent => exact absurd hm (Disk.mkdirs_self_ne_absent d _)
  | emptyDir => simp only [hm]
  | nonEmpty => simp only [hm]

theorem clear_user_document_data_eq (up u : String) (del : DelOutcome)
    (ok : Bool) (d : Disk) :
    clear_user_document_data up u del ok d =
      (clear_user_uploaded_files up u ok (clear_user_vector_store u del d).1).1 :=
  rfl

theorem clear_user_uploaded_files_ok_self (up u : String) (d : Disk) :
    (clear_user_uploaded_files up u true d).1 (user_upload_dir up u) =
      DirState.absent := by
  unfold clear_user_uploaded_files
  simp only []
  cases hm : d (user_upload_dir up u) with
  | absent => simp only [hm]
  | emptyDir =>
    simp only [hm, if_true]
    exact Disk.set_self _ _ _
  | nonEmpty =>
    simp only [hm, if_true]
    exact Disk.set_self _ _ _

theorem clear_user_uploaded_files_ok_other (up u : String) (d : Disk)
    (r : String) (h : r ≠ user_upload_dir up u) :
    (clear_user_uploaded_files up u true d).1 r = d r := by
  unfold clear_user_uploaded_files
  simp only []
  cases hm : d (user_upload_dir up u) with
  | absent => simp only [hm]
  | emptyDir =>
    simp only [hm, if_true]
    exact Disk.set_other _ _ _ _ h
  | nonEmpty =>
    simp only [hm, if_true]
    exact Disk.set_other _ _ _ _ h

theorem clear_user_document_data_success (up u : String) (d : Disk) :
    clear_user_document_data up u DelOutcome.success true d
        (get_user_chroma_path u) = DirState.absent ∧
    clear_user_document_data up u DelOutcome.success true d
        (user_upload_dir up u) = DirState.absent := by
  constructor
  · by_cases hpq : get_user_chroma_path u = user_upload_dir up u
    · show (clear_user_uploaded_files up u true
        (clear_user_vector_store u DelOutcome.success d).1).1
          (get_user_chroma_path u) = DirState.absent
      rw [hpq]
      exact clear_user_uploaded_files_ok_self _ _ _
    · show (clear_user_uploaded_files up u true
        (clear_user_vector_store u DelOutcome.success d).1).1
          (get_user_chroma_path u) = DirState.absent
      rw [clear_user_uploaded_files_ok_other _ _ _ _ hpq,
        clear_user_vector_store_success]
      exact Disk.set_self _ _ _
  · exact clear_user_uploaded_files_ok_self _ _ _

/-- Claim C3: clearing the doc_qa memory of a user also clears that user
vector-store namespace and uploaded files, and the combined operation never
propagates an exception to its caller, whatever the deletion oracles do.
The argument up stands for the value of config.UPLOAD_DIR. -/
theorem clear_docqa_clears_documents (up : String) (reg : Registry) (d : Disk)
    (u : String) (del : DelOutcome) (ok : Bool) :
    (∃ st, clear_memory_for_function up "doc_qa" u del ok reg d = Except.ok st) ∧
    (del = DelOutcome.success → ok = true →
      ∀ st, clear_memory_for_function up "doc_qa" u del ok reg d = Except.ok st →
        st.2 (get_user_chroma_path u) = DirState.absent ∧
        st.2 (user_upload_dir up u) = DirState.absent) := by
  refine ⟨⟨_, rfl⟩, ?_⟩
  rintro rfl rfl st hst
  cases hst
  exact clear_user_document_data_success up u d

/-- Claim C3 witness at the concrete user alice on the empty state. -/
theorem clear_docqa_clears_documents_witness :
    ∃ st, clear_memory_for_function (UPLOAD_DIR "/app") "doc_qa" "alice"
        DelOutcome.success true emptyRegistry emptyDisk = Except.ok st ∧
      st.2 (get_user_chroma_path "alice") = DirState.absent ∧
      st.2 (user_upload_dir (UPLOAD_DIR "/app") "alice") = DirState.absent := by
  obtain ⟨st, hst⟩ := (clear_docqa_clears_documents (UPLOAD_DIR "/app")
    emptyRegistry emptyDisk "alice" DelOutcome.success true).1
  exact ⟨st, hst, (clear_docqa_clears_documents (UPLOAD_DIR "/app")
    emptyRegistry emptyDisk "alice" DelOutcome.success true).2 rfl rfl st hst⟩

theorem init_embeddings_never_raises (probe : EmbedProbe) :
    ∃ r, init_embeddings probe = Except.ok r := by
  cases probe with
  | ok v =>
    by_cases h : v ≠ [] ∧ 0 < v.length
    · exact ⟨some { model := "nomic-embed-text" },
        by simp only [init_embeddings, if_pos h]⟩
    · exact ⟨none, by simp only [init_embeddings, if_neg h]⟩
  | exn => exact ⟨none, rfl⟩

/-- Claim C1 (code-bug evidence): when the embed_query health check returns
an empty vector, init_embeddings returns None instead of raising, and the
vector-store build in that scenario has already created the user namespace
directory, which stays on disk even when the downstream store creation
raises. -/
theorem init_embeddings_empty_probe_returns_none :
    init_embeddings (EmbedProbe.ok []) = Except.ok none ∧
    (init_vector_store ["hello"] "u1" (EmbedProbe.ok []) CreateOutcome.exn
      (CountOutcome.value 0) emptyDisk).1 = Except.error () ∧
    (init_vector_store ["hello"] "u1" (EmbedProbe.ok []) CreateOutcome.exn
      (CountOutcome.value 0) emptyDisk).2 (get_user_chroma_path "u1") =
      DirState.emptyDir := by
  refine ⟨rfl, rfl, ?_⟩
  decide

/-- Claim C2 (code-bug evidence): a non-streaming doc_qa request for a user
whose namespace directory is freshly created or exists but is empty never
invokes the completion model, but get_response hands back the dict value of
EmptyDocQAChain.invoke rather than the fallback string itself. -/
theorem docqa_without_collection_returns_dict :
    (get_response "hi" "doc_qa" "u1" none true []
      (fun _ => some "modelout") emptyDisk).1 =
      (PyValue.dict fallback_message, 0) ∧
    (get_response "hi" "doc_qa" "u1" none true []
      (fun _ => some "modelout")
      (emptyDisk.set (get_user_chroma_path "u1") DirState.emptyDir)).1 =
      (PyValue.dict fallback_message, 0) := by
  constructor
  · rfl
  · show (match init_doc_qa_system "u1" true
      (emptyDisk.set (get_user_chroma_path "u1") DirState.emptyDir) with
      | (DocChain.emptyChain, d1) => ((PyValue.dict fallback_message, 0), d1)
      | (DocChain.lcel, d1) =>
        match (fun _ => some "modelout" : LlmOracle)
          (render_qa_prompt (format_docs []) (history_text []) "hi") with
        | some out => ((PyValue.str out, 1), d1)
        | none => ((PyValue.str error_doc_message, 1), d1)).1 =
      (PyValue.dict fallback_message, 0)
    have hdir : (emptyDisk.set (get_user_chroma_path "u1") DirState.emptyDir).mkdirs
        (get_user_chroma_path "u1") (get_user_chroma_path "u1") = DirState.emptyDir := by
      decide
    unfold init_doc_qa_system get_user_chroma_path_mk
    simp only []
    rw [hdir]

/-- Claim C5 counterexample: with a healthy embedding probe and a successful
store creation, a verified record count of zero still yields a successful
rebuild handing back the similarity retriever, instead of failing. -/
theorem init_vector_store_zero_count_succeeds :
    (init_vector_store ["hello"] "u1" (EmbedProbe.ok [1]) CreateOutcome.ok
      (CountOutcome.value 0) emptyDisk).1 =
      Except.ok { search_type := "similarity", k := 4 } := by
  rfl

/-- Claim C5 (amended): the post-insert verification step can abort the
rebuild neither on a zero record count nor on a failing count call, because
the zero-count ValueError is raised inside the same try block whose except
clause catches it; whenever some chunk has non-whitespace content and the
store creation succeeds, the rebuild returns the similarity retriever with
top-k equal to 4 for every count outcome. -/
theorem init_vector_store_verification_never_aborts
    (documents : List String) (u : String) (probe : EmbedProbe)
    (count : CountOutcome) (d : Disk)
    (h : ¬ (documents.filter (fun s => pyStrip s ≠ "")).isEmpty) :
    (init_vector_store documents u probe CreateOutcome.ok count d).1 =
      Except.ok { search_type := "similarity", k := 4 } := by
  obtain ⟨r, hr⟩ := init_embeddings_never_raises probe
  unfold init_vector_store
  simp only []
  rw [if_neg h, hr]

/-- Claim C5 witness at one concrete chunk list, user and count outcome. -/
theorem init_vector_store_verification_never_aborts_witness :
    (init_vector_store ["hello"] "u2" (EmbedProbe.ok [1]) CreateOutcome.ok
      CountOutcome.exn emptyDisk).1 =
      Except.ok { search_type := "similarity", k := 4 } :=
  init_vector_store_verification_never_aborts ["hello"] "u2"
    (EmbedProbe.ok [1]) CountOutcome.exn emptyDisk (by decide)

theorem lookup_role_unknown (f : String) (hf : f ∉ valid_functions) :
    (List.lookup f role_descriptions).getD general_role = general_role := by
  have h1 : (f == "play") = false :=
    beq_eq_false_iff_ne.mpr (fun h => hf (by rw [h]; decide))
  have h2 : (f == "game_guide") = false :=
    beq_eq_false_iff_ne.mpr (fun h => hf (by rw [h]; decide))
  have h3 : (f == "doc_qa") = false :=
    beq_eq_false_iff_ne.mpr (fun h => hf (by rw [h]; decide))
  have h4 : (f == "game_wiki") = false :=
    beq_eq_false_iff_ne.mpr (fun h => hf (by rw [h]; decide))
  simp [List.lookup, role_descriptions, h1, h2, h3, h4]

theorem get_system_unknown (f : String) (hf : f ∉ valid_functions)
    (systems : List String) (createOk : Bool) (hg : "general" ∈ systems) :
    get_system_for_function f systems createOk = SysOutcome.system "general" := by
  unfold get_system_for_function
  simp only []
  rw [if_neg hf, if_pos hg]

/-- Claim C9: every function type outside the known set is answered through
the general fallback and never raises: the system lookup normalizes the
type to the cached general system, the role lookup of the prompt falls back
to the general role description, and get_response reduces to the general
path rendered with that role, returning normally for every model outcome. -/
theorem unknown_function_uses_general_role (f : String)
    (hf : f ∉ valid_functions) :
    (∀ (systems : List String) (createOk : Bool), "general" ∈ systems →
      get_system_for_function f systems createOk = SysOutcome.system "general") ∧
    (List.lookup f role_descriptions).getD general_role = general_role ∧
    (∀ (message u : String) (ch : Option (List Turn)) (buildOk : Bool)
        (retrieved : List String) (llm : LlmOracle) (d : Disk),
      get_response message f u ch buildOk retrieved llm d =
        ((match llm (render_general_prompt general_role
            (history_text (ch.getD [])) message) with
          | some out => (PyValue.str (pyStrip out), 1)
          | none => (PyValue.str error_general_message, 1)), d)) := by
  have hd : f ≠ "doc_qa" := fun h => hf (by rw [h]; decide)
  have hrole := lookup_role_unknown f hf
  refine ⟨fun systems createOk hg => get_system_unknown f hf systems createOk hg,
    hrole, ?_⟩
  intro message u ch buildOk retrieved llm d
  unfold get_response
  simp only []
  rw [if_neg hd, hrole]
  cases llm (render_general_prompt general_role (history_text (ch.getD []))
    message) <;> rfl

/-- Claim C9 witness at the concrete unknown function type unknown_value. -/
theorem unknown_function_uses_general_role_witness :
    get_system_for_function "unknown_value" ["general"] true =
      SysOutcome.system "general" ∧
    get_response "hi" "unknown_value" "u1" none true []
      (fun _ => some " ok ") emptyDisk =
      ((PyValue.str "ok", 1), emptyDisk) := by
  have h := unknown_function_uses_general_role "unknown_value" (by decide)
  refine ⟨h.1 ["general"] true (by decide), ?_⟩
  rw [h.2.2 "hi" "u1" none true [] (fun _ => some " ok ") emptyDisk]
  rfl

theorem history_text_append_drop (pre rest : List Turn)
    (hlen : rest.length = 10) :
    history_text (pre ++ rest) = history_text rest := by
  unfold history_text
  rw [show (pre ++ rest).drop ((pre ++ rest).length - 10) = rest by
      simp [List.length_append, hlen],
    show rest.drop (rest.length - 10) = rest by simp [hlen]]

/-- Claim C10: both the non-streaming and the streaming response paths
render only the last ten entries of the caller-supplied chat history into
the prompt history text, so earlier entries are dropped, and a missing
history behaves exactly like the empty list. -/
theorem chat_history_last_ten (message f u : String) (buildOk : Bool)
    (retrieved : List String) (llm : LlmOracle) (d : Disk)
    (pre rest : List Turn) (hlen : rest.length = 10) :
    get_response message f u (some (pre ++ rest)) buildOk retrieved llm d =
      get_response message f u (some rest) buildOk retrieved llm d ∧
    get_response_stream message f u (some (pre ++ rest)) buildOk retrieved llm d =
      get_response_stream message f u (some rest) buildOk retrieved llm d ∧
    get_response message f u none buildOk retrieved llm d =
      get_response message f u (some []) buildOk retrieved llm d ∧
    get_response_stream message f u none buildOk retrieved llm d =
      get_response_stream message f u (some []) buildOk retrieved llm d := by
  have hh := history_text_append_drop pre rest hlen
  refine ⟨?_, ?_, rfl, rfl⟩
  · unfold get_response
    simp only [Option.getD_some, hh]
  · unfold get_response_stream
    simp only [Option.getD_some, hh]

/-- Claim C10 witness: one early turn before ten later turns renders the
same as the ten later turns alone, on both paths. -/
theorem chat_history_last_ten_witness :
    get_response "hi" "general" "u1"
        (some ([Turn.mk "user" "early"] ++ List.replicate 10 (Turn.mk "user" "later")))
        true [] (fun _ => some "r") emptyDisk =
      get_response "hi" "general" "u1"
        (some (List.replicate 10 (Turn.mk "user" "later")))
        true [] (fun _ => some "r") emptyDisk ∧
    get_response_stream "hi" "general" "u1"
        (some ([Turn.mk "user" "early"] ++ List.replicate 10 (Turn.mk "user" "later")))
        true [] (fun _ => some "r") emptyDisk =
      get_response_stream "hi" "general" "u1"
        (some (List.replicate 10 (Turn.mk "user" "later")))
        true [] (fun _ => some "r") emptyDisk ∧
    get_response "hi" "general" "u1" none true [] (fun _ => some "r") emptyDisk =
      get_response "hi" "general" "u1" (some []) true [] (fun _ => some "r")
        emptyDisk ∧
    get_response_stream "hi" "general" "u1" none true [] (fun _ => some "r")
        emptyDisk =
      get_response_stream "hi" "general" "u1" (some []) true [] (fun _ => some "r")
        emptyDisk :=
  chat_history_last_ten "hi" "general" "u1" true [] (fun _ => some "r") emptyDisk
    [Turn.mk "user" "early"] (List.replicate 10 (Turn.mk "user" "later"))
    (by decide)

theorem string_length_append (a b : String) :
    (a ++ b).length = a.length + b.length := by
  rw [← String.length_data, String.data_append, List.length_append,
    String.length_data, String.length_data]

/-- A chunk of 501 identical characters, for the summary length bound. -/
def long_chunk : String := String.mk (List.replicate 501 'a')

set_option maxRecDepth 4000 in
/-- Claim C8 counterexample: a single 501-character chunk yields an upload
summary of 503 characters, exceeding the claimed 500-character bound. -/
theorem upload_summary_can_exceed_500 :
    (upload_success_response "a.txt" [long_chunk] [long_chunk]).summary.length
      = 503 ∧
    ¬ (upload_success_response "a.txt" [long_chunk] [long_chunk]).summary.length
      ≤ 500 := by
  constructor
  · decide
  · decide

/-- Claim C8 (amended): on a successful upload the summary is the first
three chunks joined by single spaces; when that text has more than 500
characters the summary is its first 500 characters plus a three-character
ellipsis, so the summary has at most 503 characters (not 500); the response
also carries the filename, the page count and the chunk count. -/
theorem upload_response_fields (filename : String)
    (documents split_docs : List String) :
    (upload_success_response filename documents split_docs).filename = filename ∧
    (upload_success_response filename documents split_docs).page_count =
      documents.length ∧
    (upload_success_response filename documents split_docs).chunk_count =
      split_docs.length ∧
    (upload_success_response filename documents split_docs).summary.length ≤ 503 ∧
    ((String.intercalate " " (split_docs.take 3)).length ≤ 500 →
      (upload_success_response filename documents split_docs).summary =
        String.intercalate " " (split_docs.take 3)) ∧
    (500 < (String.intercalate " " (split_docs.take 3)).length →
      (upload_success_response filename documents split_docs).summary =
        String.mk ((String.intercalate " " (split_docs.take 3)).data.take 500)
          ++ "...") := by
  refine ⟨rfl, rfl, rfl, ?_, ?_, ?_⟩
  · show (generate_document_summary split_docs 500).length ≤ 503
    unfold generate_document_summary
    simp only []
    by_cases hc : (String.intercalate " " (split_docs.take 3)).length > 500
    · rw [if_pos hc, string_length_append]
      have htake : (String.mk ((String.intercalate " "
          (split_docs.take 3)).data.take 500)).length ≤ 500 := by
        show ((String.intercalate " " (split_docs.take 3)).data.take 500).length
          ≤ 500
        exact List.length_take_le 500 _
      have hdots : ("..." : String).length = 3 := rfl
      omega
    · rw [if_neg hc]
      omega
  · intro hle
    show generate_document_summary split_docs 500 = _
    unfold generate_document_summary
    simp only []
    rw [if_neg (by omega)]
  · intro hgt
    show generate_document_summary split_docs 500 = _
    unfold generate_document_summary
    simp only []
    rw [if_pos hgt]

/-- Claim C8 witness at one concrete page list and chunk list below the
truncation limit. -/
theorem upload_response_fields_witness :
    (upload_success_response "a.txt" ["p1"] ["c1", "c2"]).summary = "c1 c2" ∧
    (upload_success_response "a.txt" ["p1"] ["c1", "c2"]).filename = "a.txt" ∧
    (upload_success_response "a.txt" ["p1"] ["c1", "c2"]).page_count = 1 ∧
    (upload_success_response "a.txt" ["p1"] ["c1", "c2"]).chunk_count = 2 := by
  have h := upload_response_fields "a.txt" ["p1"] ["c1", "c2"]
  refine ⟨?_, h.1, h.2.1, h.2.2.1⟩
  rw [h.2.2.2.2.1 (by decide)]
  rfl

theorem utf8DecodeAux_congr (fuel1 : Nat) :
    ∀ (fuel2 : Nat) (l : List Nat), l.length ≤ fuel1 → l.length ≤ fuel2 →
      utf8DecodeAux fuel1 l = utf8DecodeAux fuel2 l := by
  induction fuel1 with
  | zero =>
    intro fuel2 l h1 h2
    have hl : l = [] := List.eq_nil_of_length_eq_zero (by omega)
    subst hl
    cases fuel2 <;> rfl
  | succ f1 ih =>
    intro fuel2 l h1 h2
    cases l with
    | nil => cases fuel2 <;> rfl
    | cons b rest =>
      simp only [List.length_cons] at h1 h2
      cases fuel2 with
      | zero => omega
      | succ f2 =>
        simp only [utf8DecodeAux]
        cases hs : utf8Step b rest with
        | none => rfl
        | some ck =>
          obtain ⟨c, k⟩ := ck
          simp only []
          rw [ih f2 (rest.drop k) (by simp only [List.length_drop]; omega)
            (by simp only [List.length_drop]; omega)]

theorem utf8Decode_cons (b : Nat) (rest : List Nat) :
    utf8Decode (b :: rest) =
      match utf8Step b rest with
      | none => none
      | some (c, k) => (utf8Decode (rest.drop k)).map (fun t => c :: t) := by
  show utf8DecodeAux (b :: rest).length (b :: rest) = _
  simp only [List.length_cons, utf8DecodeAux]
  cases hs : utf8Step b rest with
  | none => rfl
  | some ck =>
    obtain ⟨c, k⟩ := ck
    simp only []
    rw [utf8DecodeAux_congr rest.length (rest.drop k).length (rest.drop k)
      (by simp only [List.length_drop]; omega) (le_refl _)]
    rfl

theorem utf8_decode_encode_char (c : Nat) (h : ValidCp c) (rest : List Nat) :
    utf8Decode (utf8EncodeChar c ++ rest) =
      (utf8Decode rest).map (fun t => c :: t) := by
  obtain ⟨hlt, hsur⟩ := h
  by_cases c1 : c < 0x80
  · rw [show utf8EncodeChar c = [c] from by rw [utf8EncodeChar, if_pos c1]]
    have hs : utf8Step c rest = some (c, 0) := by
      simp only [utf8Step]
      rw [if_pos c1]
    show utf8Decode (c :: rest) = _
    rw [utf8Decode_cons, hs]
    simp only [List.drop_zero]
  · by_cases c2 : c < 0x800
    · rw [show utf8EncodeChar c = [0xC0 + c / 64, 0x80 + c % 64] from by
        rw [utf8EncodeChar, if_neg c1, if_pos c2]]
      have hs : utf8Step (0xC0 + c / 64) ((0x80 + c % 64) :: rest) =
          some (c, 1) := by
        simp only [utf8Step]
        rw [if_neg (by omega), if_neg (by omega), if_pos (by omega),
          if_pos (by omega)]
        have hv : (0xC0 + c / 64 - 0xC0) * 64 + (0x80 + c % 64 - 0x80) = c := by
          omega
        rw [hv]
      show utf8Decode ((0xC0 + c / 64) :: (0x80 + c % 64) :: rest) = _
      rw [utf8Decode_cons, hs]
      simp only [List.drop_succ_cons, List.drop_zero]
    · by_cases c3 : c < 0x10000
      · rw [show utf8EncodeChar c =
            [0xE0 + c / 4096, 0x80 + c / 64 % 64, 0x80 + c % 64] from by
          rw [utf8EncodeChar, if_neg c1, if_neg c2, if_pos c3]]
        have hs : utf8Step (0xE0 + c / 4096)
            ((0x80 + c / 64 % 64) :: (0x80 + c % 64) :: rest) =
            some (c, 2) := by
          simp only [utf8Step]
          rw [if_neg (by omega), if_neg (by omega), if_neg (by omega),
            if_pos (by omega), if_pos (by omega)]
          have hv : (0xE0 + c / 4096 - 0xE0) * 4096 +
              (0x80 + c / 64 % 64 - 0x80) * 64 + (0x80 + c % 64 - 0x80) = c := by
            omega
          rw [hv, if_pos ⟨by omega, hsur⟩]
        show utf8Decode ((0xE0 + c / 4096) :: (0x80 + c / 64 % 64) ::
          (0x80 + c % 64) :: rest) = _
        rw [utf8Decode_cons, hs]
        simp only [List.drop_succ_cons, List.drop_zero]
      · rw [show utf8EncodeChar c = [0xF0 + c / 262144, 0x80 + c / 4096 % 64,
            0x80 + c / 64 % 64, 0x80 + c % 64] from by
          rw [utf8EncodeChar, if_neg c1, if_neg c2, if_neg c3]]
        have hs : utf8Step (0xF0 + c / 262144)
            ((0x80 + c / 4096 % 64) :: (0x80 + c / 64 % 64) ::
              (0x80 + c % 64) :: rest) = some (c, 3) := by
          simp only [utf8Step]
          rw [if_neg (by omega), if_neg (by omega), if_neg (by omega),
            if_neg (by omega), if_pos (by omega), if_pos (by omega)]
          have hv : (0xF0 + c / 262144 - 0xF0) * 262144 +
              (0x80 + c / 4096 % 64 - 0x80) * 4096 +
              (0x80 + c / 64 % 64 - 0x80) * 64 + (0x80 + c % 64 - 0x80) = c := by
            omega
          rw [hv, if_pos ⟨by omega, by omega⟩]
        show utf8Decode ((0xF0 + c / 262144) :: (0x80 + c / 4096 % 64) ::
          (0x80 + c / 64 % 64) :: (0x80 + c % 64) :: rest) = _
        rw [utf8Decode_cons, hs]
        simp only [List.drop_succ_cons, List.drop_zero]

theorem utf8_decode_encode (t : List Nat) (h : ∀ c ∈ t, ValidCp c) :
    utf8Decode (utf8Encode t) = some t := by
  induction t with
  | nil => rfl
  | cons c t ih =>
    have hc : ValidCp c := h c (List.mem_cons_self c t)
    have ht : ∀ x ∈ t, ValidCp x := fun x hx => h x (List.mem_cons_of_mem c hx)
    have henc : utf8Encode (c :: t) = utf8EncodeChar c ++ utf8Encode t := by
      simp [utf8Encode]
    rw [henc, utf8_decode_encode_char c hc, ih ht]
    rfl

theorem process_txt_utf8 (bs t : List Nat) (h : utf8Decode bs = some t) :
    process_uploaded_file_txt bs = Except.ok t := by
  simp only [process_uploaded_file_txt, txt_encodings, firstSuccess, h]

theorem process_txt_total (bs : List Nat) :
    ∃ t, process_uploaded_file_txt bs = Except.ok t := by
  cases h1 : utf8Decode bs with
  | some t => exact ⟨t, process_txt_utf8 bs t h1⟩
  | none =>
    cases h2 : gbkDecode bs with
    | some t =>
      exact ⟨t, by
        simp only [process_uploaded_file_txt, txt_encodings, firstSuccess,
          h1, h2]⟩
    | none =>
      cases h3 : gb2312Decode bs with
      | some t =>
        exact ⟨t, by
          simp only [process_uploaded_file_txt, txt_encodings, firstSuccess,
            h1, h2, h3]⟩
      | none =>
        cases h4 : utf8SigDecode bs with
        | some t =>
          exact ⟨t, by
            simp only [process_uploaded_file_txt, txt_encodings, firstSuccess,
              h1, h2, h3, h4]⟩
        | none =>
          exact ⟨bs, by
            simp only [process_uploaded_file_txt, txt_encodings, firstSuccess,
              h1, h2, h3, h4, latin1Decode]⟩

/-- Claim C4 counterexample: the bytes of the utf-8-sig encoding of the text
A are decoded by the earlier plain utf-8 candidate, which keeps the byte
order mark as a leading U+FEFF code point, so the loaded content does not
match the original text. -/
theorem txt_loader_bom_counterexample :
    utf8SigDecode [239, 187, 191, 65] = some [65] ∧
    process_uploaded_file_txt [239, 187, 191, 65] = Except.ok [65279, 65] ∧
    ¬ process_uploaded_file_txt [239, 187, 191, 65] = Except.ok [65] := by
  refine ⟨by decide, by rfl, ?_⟩
  intro h
  rw [show process_uploaded_file_txt [239, 187, 191, 65] =
    Except.ok [65279, 65] from rfl] at h
  injection h with h2
  exact absurd h2 (by decide)

/-- Claim C4 (amended): process_uploaded_file tries the candidate encodings
in the fixed order utf-8, gbk, gb2312, utf-8-sig, latin-1 and returns the
first successful decode, so a file whose bytes also decode under an earlier
candidate is captured by that one and its content need not match the
original text (the utf-8-sig byte order mark survives as U+FEFF); a file
encoded in plain utf-8 decodes to exactly the original text; and since the
latin-1 fallback accepts every byte sequence, loading always succeeds and
the all-candidates-fail ValueError is unreachable on decode errors. -/
theorem txt_loader_first_successful_decode :
    (∀ bs t, utf8Decode bs = some t →
      process_uploaded_file_txt bs = Except.ok t) ∧
    (∀ t, (∀ c ∈ t, ValidCp c) →
      process_uploaded_file_txt (utf8Encode t) = Except.ok t) ∧
    (∀ bs, ∃ t, process_uploaded_file_txt bs = Except.ok t) :=
  ⟨process_txt_utf8,
    fun t ht => process_txt_utf8 _ t (utf8_decode_encode t ht),
    process_txt_total⟩

/-- Claim C4 witness at the utf-8 bytes of a two-character CJK text. -/
theorem txt_loader_first_successful_decode_witness :
    process_uploaded_file_txt [228, 189, 160, 229, 165, 189] =
      Except.ok [20320, 22909] :=
  txt_loader_first_successful_decode.1 [228, 189, 160, 229, 165, 189]
    [20320, 22909] (by decide)

end GameChat
